import Mathlib

/-!
Verification of `pxr/imaging/hdSt/textureUtils.cpp` (Storm texture utilities).

The C++ translation units modelled here:

* `_OpaqueAlpha<T>` — the fully-opaque alpha value for an element type;
* `_ConvertRGBToRGBA<T>` — 3-channel → 4-channel expansion, documented in the
  source as safe for `src == dst` thanks to its backward loop;
* `_ConvertColorSpace<t>` — the sRGB ↔ linear transfer functions, each result
  clamped to `[0, 1]`;
* `_PremultiplyAlpha<T, isSRGB>` — alpha premultiplication for integral
  element types;
* `_PremultiplyAlphaFloat<T>` — alpha premultiplication for floating-point
  element types;
* `HdStTextureUtils::GetHgiFormat` — the format selector.

Embedding conventions.  Machine floating-point arithmetic is embedded as
exact arithmetic: over `ℚ` wherever the computation is rational (so those
definitions stay executable and decidable), and over `ℝ` for the sRGB paths,
which use the transcendental `pow`.  Buffers are flat `List α` memories where
aliasing matters (`_ConvertRGBToRGBA` with `src == dst`); the premultiply
routines are given per texel, because iteration `i` of their loops reads and
writes only texel `i` (the alpha value is read before any channel of the
texel is written, and each channel is read before it is written, so the body
is the same pointwise function whether or not `src == dst`).
-/

/-- A 4-channel texel: red, green, blue, alpha. -/
structure Texel (α : Type) where
  r : α
  g : α
  b : α
  a : α
  deriving DecidableEq, Repr

/-- The value `_OpaqueAlpha<unsigned char>()` returns:
`std::numeric_limits<unsigned char>::max()`, i.e. `255` (for integral `T` the
template returns `numeric_limits<T>::max()`, for floating-point `T` it
returns `T(1)`). -/
def OpaqueAlphaUInt8 : ℕ := 255

/-- One iteration of the `while (i--)` loop body of `_ConvertRGBToRGBA<T>`
in the aliased case `src == dst`: `typedSrc` and `typedDst` point at the same
memory `mem`, so each of the four assignments (performed in source order)
is visible to the subsequent reads.

```
typedDst[4 * i + 0] = typedSrc[3 * i + 0];
typedDst[4 * i + 1] = typedSrc[3 * i + 1];
typedDst[4 * i + 2] = typedSrc[3 * i + 2];
typedDst[4 * i + 3] = _OpaqueAlpha<T>();
```
-/
def convertRGBToRGBABody [Inhabited α] (fill : α) (i : ℕ) (mem : List α) : List α :=
  let m1 := mem.set (4 * i) (mem.getD (3 * i) default)
  let m2 := m1.set (4 * i + 1) (m1.getD (3 * i + 1) default)
  let m3 := m2.set (4 * i + 2) (m2.getD (3 * i + 2) default)
  m3.set (4 * i + 3) fill

/-- The function `_ConvertRGBToRGBA<T>` in the aliased case `src == dst`
(the in-place growth mode the source's comment `Going backward so that we
can convert in place` advertises): `size_t i = numTexels; while (i--) ...`
runs the loop body for `i = numTexels - 1` down to `i = 0` on the single
shared memory region. -/
def convertRGBToRGBAInPlace [Inhabited α] (fill : α) : ℕ → List α → List α
  | 0, mem => mem
  | i + 1, mem => convertRGBToRGBAInPlace fill i (convertRGBToRGBABody fill i mem)

/-- The function `_ConvertRGBToRGBA<T>` when `src` and `dst` do not overlap:
every read `typedSrc[3 * i + j]` then comes from the unmodified source
buffer `src`, and only `dst` is written. -/
def convertRGBToRGBASeparate [Inhabited α] (fill : α) (src : List α) :
    ℕ → List α → List α
  | 0, dst => dst
  | i + 1, dst =>
      convertRGBToRGBASeparate fill src i
        ((((dst.set (4 * i) (src.getD (3 * i) default)).set (4 * i + 1)
            (src.getD (3 * i + 1) default)).set (4 * i + 2)
            (src.getD (3 * i + 2) default)).set (4 * i + 3) fill)

/-- Truncation of an exact rational to an integer, as the C++ conversion
from a floating-point value to an integral type does: toward zero. -/
def truncToInt (q : ℚ) : ℤ := if 0 ≤ q then ⌊q⌋ else -⌊-q⌋

/-- Loop body of `_PremultiplyAlpha<T, isSRGB = false>` for one texel, for an
unsigned integral element type whose `std::numeric_limits<T>::max()` is
`maxVal` (e.g. `255` for `unsigned char`).  The arithmetic the C++ performs
in `float` is rational, so it is embedded exactly over `ℚ`:

```
const float alpha = static_cast<float>(typedSrc[4*i + 3]) / max;
for (j = 0; j < 3; j++) {
    float p = static_cast<float>(typedSrc[4*i + j]);
    p *= alpha;
    typedDst[4*i + j] = p + 0.5f;   // float → T truncates
}
typedDst[4*i + 3] = typedSrc[4*i + 3];
```
-/
def premultiplyAlphaTexel (maxVal : ℕ) (t : Texel ℕ) : Texel ℕ :=
  let alpha : ℚ := (t.a : ℚ) / (maxVal : ℚ)
  { r := (truncToInt ((t.r : ℚ) * alpha + 1/2)).toNat
    g := (truncToInt ((t.g : ℚ) * alpha + 1/2)).toNat
    b := (truncToInt ((t.b : ℚ) * alpha + 1/2)).toNat
    a := t.a }

/-- Loop body of `_PremultiplyAlphaFloat<T>` for one texel.  The element
values are embedded as exact rationals; the body only multiplies and copies:

```
const T alpha = typedSrc[4*i + 3];
for (j = 0; j < 3; j++) {
    typedDst[4*i + j] = typedSrc[4*i + j] * alpha;
}
typedDst[4*i + 3] = typedSrc[4*i + 3];
```
-/
def premultiplyAlphaFloatTexel (t : Texel ℚ) : Texel ℚ :=
  { r := t.r * t.a
    g := t.g * t.a
    b := t.b * t.a
    a := t.a }

/-- The `HioFormat` enumerators that appear as case labels in the
`GetHgiFormat` switch (the full set of recognized source formats, plus the
`Invalid` and `Count` sentinels, which also have explicit cases). -/
inductive HioFormat
  | UNorm8 | UNorm8Vec2 | UNorm8Vec3 | UNorm8Vec4
  | SNorm8 | SNorm8Vec2 | SNorm8Vec3 | SNorm8Vec4
  | Float16 | Float16Vec2 | Float16Vec3 | Float16Vec4
  | Float32 | Float32Vec2 | Float32Vec3 | Float32Vec4
  | Double64 | Double64Vec2 | Double64Vec3 | Double64Vec4
  | UInt16 | UInt16Vec2 | UInt16Vec3 | UInt16Vec4
  | Int16 | Int16Vec2 | Int16Vec3 | Int16Vec4
  | UInt32 | UInt32Vec2 | UInt32Vec3 | UInt32Vec4
  | Int32 | Int32Vec2 | Int32Vec3 | Int32Vec4
  | UNorm8srgb | UNorm8Vec2srgb | UNorm8Vec3srgb | UNorm8Vec4srgb
  | BC6FloatVec3 | BC6UFloatVec3 | BC7UNorm8Vec4 | BC7UNorm8Vec4srgb
  | BC1UNorm8Vec4 | BC3UNorm8Vec4
  | Invalid | Count
  deriving DecidableEq, Fintype, Repr

/-- The `HgiFormat` enumerators `GetHgiFormat` can return. -/
inductive HgiFormat
  | UNorm8 | UNorm8Vec2 | UNorm8Vec4
  | SNorm8 | SNorm8Vec2 | SNorm8Vec4
  | Float16 | Float16Vec2 | Float16Vec3 | Float16Vec4
  | Float32 | Float32Vec2 | Float32Vec3 | Float32Vec4
  | UInt16 | UInt16Vec2 | UInt16Vec3 | UInt16Vec4
  | Int32 | Int32Vec2 | Int32Vec3 | Int32Vec4
  | UNorm8Vec4srgb
  | BC6FloatVec3 | BC6UFloatVec3 | BC7UNorm8Vec4 | BC7UNorm8Vec4srgb
  | BC1UNorm8Vec4 | BC3UNorm8Vec4
  | Invalid
  deriving DecidableEq, Fintype, Repr

/-- The element types `T` at which the transformer templates are
instantiated inside `GetHgiFormat`. -/
inductive ElemType
  | unsignedChar | signedChar | gfHalf | float | uint16 | int32
  deriving DecidableEq, Fintype, Repr

/-- A value of the `HdStTextureUtils::ConversionFunction` function-pointer
type: which template instantiation `GetHgiFormat` stores through its
out-parameter. -/
inductive ConversionFunction
  | convertRGBToRGBA (t : ElemType)
  | premultiplyAlpha (t : ElemType) (isSRGB : Bool)
  | premultiplyAlphaFloat (t : ElemType)
  deriving DecidableEq, Fintype, Repr

/-- The diagnostic severities `GetHgiFormat` can emit: `TF_WARN` for
recognized-but-unsupported formats, `TF_CODING_ERROR` for the `Count`
sentinel and for values outside the enumeration. -/
inductive TfDiagType
  | warning | codingError
  deriving DecidableEq, Fintype, Repr

/-- The observable outcome of one `GetHgiFormat` call: the returned
`HgiFormat`, the value of `*conversionFunction` after the call, and the
severity of the diagnostic emitted during the call, if any. -/
structure GetHgiFormatResult where
  ret : HgiFormat
  conversionFunction : Option ConversionFunction
  diag : Option TfDiagType
  deriving DecidableEq, Repr

/-- The function `HdStTextureUtils::GetHgiFormat`.  The C++ receives the
out-parameter `conversionFunction` by pointer and assigns
`*conversionFunction` only in some switch cases; the pointee is modelled by
passing its value before the call (`conv`) in and returning its value after
the call.  An input of `none` stands for an integer value that is not one of
the `HioFormat` enumerators: the switch matches no case and control falls
through to the trailing `TF_CODING_ERROR`. -/
def GetHgiFormat (hioFormat : Option HioFormat)
    (premultiplyAlpha avoidThreeComponentFormats : Bool)
    (conv : Option ConversionFunction) : GetHgiFormatResult :=
  match hioFormat with
  | some .UNorm8 => ⟨.UNorm8, conv, none⟩
  | some .UNorm8Vec2 => ⟨.UNorm8Vec2, conv, none⟩
  | some .UNorm8Vec3 =>
      ⟨.UNorm8Vec4, some (.convertRGBToRGBA .unsignedChar), none⟩
  | some .UNorm8Vec4 =>
      ⟨.UNorm8Vec4,
        if premultiplyAlpha then some (.premultiplyAlpha .unsignedChar false)
        else conv, none⟩
  | some .SNorm8 => ⟨.SNorm8, conv, none⟩
  | some .SNorm8Vec2 => ⟨.SNorm8Vec2, conv, none⟩
  | some .SNorm8Vec3 =>
      ⟨.SNorm8Vec4, some (.convertRGBToRGBA .signedChar), none⟩
  | some .SNorm8Vec4 =>
      ⟨.SNorm8Vec4,
        if premultiplyAlpha then some (.premultiplyAlpha .signedChar false)
        else conv, none⟩
  | some .Float16 => ⟨.Float16, conv, none⟩
  | some .Float16Vec2 => ⟨.Float16Vec2, conv, none⟩
  | some .Float16Vec3 =>
      if avoidThreeComponentFormats then
        ⟨.Float16Vec4, some (.convertRGBToRGBA .gfHalf), none⟩
      else ⟨.Float16Vec3, conv, none⟩
  | some .Float16Vec4 =>
      ⟨.Float16Vec4,
        if premultiplyAlpha then some (.premultiplyAlphaFloat .gfHalf)
        else conv, none⟩
  | some .Float32 => ⟨.Float32, conv, none⟩
  | some .Float32Vec2 => ⟨.Float32Vec2, conv, none⟩
  | some .Float32Vec3 =>
      if avoidThreeComponentFormats then
        ⟨.Float32Vec4, some (.convertRGBToRGBA .float), none⟩
      else ⟨.Float32Vec3, conv, none⟩
  | some .Float32Vec4 =>
      ⟨.Float32Vec4,
        if premultiplyAlpha then some (.premultiplyAlphaFloat .float)
        else conv, none⟩
  | some .Double64 | some .Double64Vec2 | some .Double64Vec3
  | some .Double64Vec4 =>
      ⟨.Invalid, conv, some .warning⟩
  | some .UInt16 => ⟨.UInt16, conv, none⟩
  | some .UInt16Vec2 => ⟨.UInt16Vec2, conv, none⟩
  | some .UInt16Vec3 =>
      if avoidThreeComponentFormats then
        ⟨.UInt16Vec4, some (.convertRGBToRGBA .uint16), none⟩
      else ⟨.UInt16Vec3, conv, none⟩
  | some .UInt16Vec4 =>
      ⟨.UInt16Vec4,
        if premultiplyAlpha then some (.premultiplyAlpha .uint16 false)
        else conv, none⟩
  | some .Int16 | some .Int16Vec2 | some .Int16Vec3 | some .Int16Vec4 =>
      ⟨.Invalid, conv, some .warning⟩
  | some .UInt32 | some .UInt32Vec2 | some .UInt32Vec3 | some .UInt32Vec4 =>
      ⟨.Invalid, conv, some .warning⟩
  | some .Int32 => ⟨.Int32, conv, none⟩
  | some .Int32Vec2 => ⟨.Int32Vec2, conv, none⟩
  | some .Int32Vec3 =>
      if avoidThreeComponentFormats then
        ⟨.Int32Vec4, some (.convertRGBToRGBA .int32), none⟩
      else ⟨.Int32Vec3, conv, none⟩
  | some .Int32Vec4 =>
      ⟨.Int32Vec4,
        if premultiplyAlpha then some (.premultiplyAlpha .int32 false)
        else conv, none⟩
  | some .UNorm8srgb | some .UNorm8Vec2srgb =>
      ⟨.Invalid, conv, some .warning⟩
  | some .UNorm8Vec3srgb =>
      ⟨.UNorm8Vec4srgb, some (.convertRGBToRGBA .unsignedChar), none⟩
  | some .UNorm8Vec4srgb =>
      ⟨.UNorm8Vec4srgb,
        if premultiplyAlpha then some (.premultiplyAlpha .unsignedChar true)
        else conv, none⟩
  | some .BC6FloatVec3 => ⟨.BC6FloatVec3, conv, none⟩
  | some .BC6UFloatVec3 => ⟨.BC6UFloatVec3, conv, none⟩
  | some .BC7UNorm8Vec4 => ⟨.BC7UNorm8Vec4, conv, none⟩
  | some .BC7UNorm8Vec4srgb => ⟨.BC7UNorm8Vec4srgb, conv, none⟩
  | some .BC1UNorm8Vec4 => ⟨.BC1UNorm8Vec4, conv, none⟩
  | some .BC3UNorm8Vec4 => ⟨.BC3UNorm8Vec4, conv, none⟩
  | some .Invalid => ⟨.Invalid, conv, none⟩
  | some .Count => ⟨.Invalid, conv, some .codingError⟩
  | none => ⟨.Invalid, conv, some .codingError⟩

/-- The combinations of input format and flags at which `GetHgiFormat`
assigns `*conversionFunction`: a 3-channel expansion case (always for the
normalized formats, only under `avoidThreeComponentFormats` for the
float/int ones) or an uncompressed 4-channel case with `premultiplyAlpha`
set. -/
def selectsConversion (hioFormat : Option HioFormat)
    (premultiplyAlpha avoidThreeComponentFormats : Bool) : Bool :=
  match hioFormat with
  | some .UNorm8Vec3 | some .SNorm8Vec3 | some .UNorm8Vec3srgb => true
  | some .Float16Vec3 | some .Float32Vec3 | some .UInt16Vec3
  | some .Int32Vec3 => avoidThreeComponentFormats
  | some .UNorm8Vec4 | some .SNorm8Vec4 | some .Float16Vec4
  | some .Float32Vec4 | some .UInt16Vec4 | some .Int32Vec4
  | some .UNorm8Vec4srgb => premultiplyAlpha
  | _ => false

/-- The conversion function a writing case of `GetHgiFormat` stores
(arbitrary at the non-writing formats, where it is never used). -/
def conversionWritten (hioFormat : Option HioFormat) : ConversionFunction :=
  match hioFormat with
  | some .UNorm8Vec3 => .convertRGBToRGBA .unsignedChar
  | some .SNorm8Vec3 => .convertRGBToRGBA .signedChar
  | some .UNorm8Vec3srgb => .convertRGBToRGBA .unsignedChar
  | some .Float16Vec3 => .convertRGBToRGBA .gfHalf
  | some .Float32Vec3 => .convertRGBToRGBA .float
  | some .UInt16Vec3 => .convertRGBToRGBA .uint16
  | some .Int32Vec3 => .convertRGBToRGBA .int32
  | some .UNorm8Vec4 => .premultiplyAlpha .unsignedChar false
  | some .SNorm8Vec4 => .premultiplyAlpha .signedChar false
  | some .Float16Vec4 => .premultiplyAlphaFloat .gfHalf
  | some .Float32Vec4 => .premultiplyAlphaFloat .float
  | some .UInt16Vec4 => .premultiplyAlpha .uint16 false
  | some .Int32Vec4 => .premultiplyAlpha .int32 false
  | some .UNorm8Vec4srgb => .premultiplyAlpha .unsignedChar true
  | _ => .convertRGBToRGBA .unsignedChar

/-- Modelled from the spec: `GfClamp` (`pxr/base/gf/math.h`, not under
`src/`) — the spec requires `clamping the result to [0,1] after each
color-space conversion step`; `GfClamp(value, min, max)` returns `min` when
`value < min`, `max` when `value > max`, and `value` otherwise. -/
noncomputable def GfClamp (value lo hi : ℝ) : ℝ :=
  if value < lo then lo else if hi < value then hi else value

/-- The function `_ConvertColorSpace<_SRGBToLinear>`, over `ℝ` (the C++
computes in `float`/`double` and calls the transcendental `pow`):

```
if (in <= 0.04045) { out = in / 12.92; }
else               { out = pow((in + 0.055) / 1.055, 2.4); }
return GfClamp(out, 0.f, 1.f);
```
-/
noncomputable def convertSRGBToLinear (x : ℝ) : ℝ :=
  GfClamp (if x ≤ 0.04045 then x / 12.92 else ((x + 0.055) / 1.055) ^ (2.4 : ℝ)) 0 1

/-- The function `_ConvertColorSpace<_LinearToSRGB>`, over `ℝ`:

```
if (in <= 0.0031308) { out = 12.92 * in; }
else                 { out = 1.055 * pow(in, 1.0 / 2.4) - 0.055; }
return GfClamp(out, 0.f, 1.f);
```
-/
noncomputable def convertLinearToSRGB (x : ℝ) : ℝ :=
  GfClamp (if x ≤ 0.0031308 then 12.92 * x else 1.055 * x ^ (1 / (2.4 : ℝ)) - 0.055) 0 1

/-- Truncation of a real to an integer, as the C++ conversion from a
floating-point value to an integral type does: toward zero. -/
noncomputable def truncToIntR (x : ℝ) : ℤ := if 0 ≤ x then ⌊x⌋ else -⌊-x⌋

/-- Body of `_PremultiplyAlpha<unsigned char, isSRGB = true>` for one color
channel `p` of a texel whose alpha channel is `a` (`max = 255` for
`unsigned char`):

```
const float alpha = static_cast<float>(typedSrc[4*i + 3]) / max;
float p = static_cast<float>(typedSrc[4*i + j]);
p = max * _ConvertColorSpace<_SRGBToLinear>(p / max);
p *= alpha;
p = max * _ConvertColorSpace<_LinearToSRGB>(p / max);
typedDst[4*i + j] = p + 0.5f;   // float → unsigned char truncates
```
-/
noncomputable def premultiplySRGBChannel (p a : ℕ) : ℤ :=
  let max : ℝ := 255
  let alpha : ℝ := (a : ℝ) / max
  let p1 : ℝ := max * convertSRGBToLinear ((p : ℝ) / max)
  let p2 : ℝ := p1 * alpha
  let p3 : ℝ := max * convertLinearToSRGB (p2 / max)
  truncToIntR (p3 + 0.5)

/-- Loop body of `_PremultiplyAlpha<unsigned char, isSRGB = true>` for one
texel: the three color channels go through `premultiplySRGBChannel`, the
alpha channel is copied through (`typedDst[4*i+3] = typedSrc[4*i+3]`). -/
noncomputable def premultiplySRGBTexel (t : Texel ℕ) : Texel ℤ :=
  { r := premultiplySRGBChannel t.r t.a
    g := premultiplySRGBChannel t.g t.a
    b := premultiplySRGBChannel t.b t.a
    a := (t.a : ℤ) }

lemma convertRoundTripLow (x : ℝ) (h0 : 0 ≤ x) (h1 : x ≤ 0.04045)
    (h2 : x ≤ 0.0031308 * 12.92) :
    convertLinearToSRGB (convertSRGBToLinear x) = x := by
  have hS : convertSRGBToLinear x = x / 12.92 := by
    unfold convertSRGBToLinear GfClamp
    rw [if_pos h1, if_neg (not_lt.mpr (by positivity)),
        if_neg (not_lt.mpr (by rw [div_le_one (by norm_num : (0:ℝ) < 12.92)]; linarith))]
  rw [hS]
  have hy : x / 12.92 ≤ 0.0031308 := by
    rw [div_le_iff₀ (by norm_num : (0:ℝ) < 12.92)]
    linarith
  have hv : 12.92 * (x / 12.92) = x := by ring
  unfold convertLinearToSRGB GfClamp
  rw [if_pos hy, hv, if_neg (not_lt.mpr h0), if_neg (not_lt.mpr (by linarith))]

lemma convertRoundTripHigh (x : ℝ) (h1 : 0.04045 < x) (h2 : x ≤ 1) :
    convertLinearToSRGB (convertSRGBToLinear x) = x := by
  have h0 : (0:ℝ) ≤ x := by linarith
  have hb0 : (0:ℝ) ≤ (x + 0.055) / 1.055 := by positivity
  have hb1 : (x + 0.055) / 1.055 ≤ 1 := by
    rw [div_le_one (by norm_num : (0:ℝ) < 1.055)]
    linarith
  have hy0 : (0:ℝ) ≤ ((x + 0.055) / 1.055) ^ (2.4 : ℝ) := Real.rpow_nonneg hb0 _
  have hy1 : ((x + 0.055) / 1.055) ^ (2.4 : ℝ) ≤ 1 :=
    Real.rpow_le_one hb0 hb1 (by norm_num)
  have hblo : (1909 : ℝ) / 21100 ≤ (x + 0.055) / 1.055 := by
    rw [le_div_iff₀ (by norm_num : (0:ℝ) < 1.055)]
    have hc : (1909 : ℝ) / 21100 * 1.055 = 0.09545 := by norm_num
    linarith
  have hstep : ((1909 : ℝ) / 21100) ^ (2.4 : ℝ) ≤ ((x + 0.055) / 1.055) ^ (2.4 : ℝ) :=
    Real.rpow_le_rpow (by norm_num) hblo (by norm_num)
  have hpow12 : (((1909 : ℝ) / 21100) ^ (2.4 : ℝ)) ^ (5 : ℕ) =
      ((1909 : ℝ) / 21100) ^ (12 : ℕ) := by
    rw [← Real.rpow_natCast (((1909 : ℝ) / 21100) ^ (2.4 : ℝ)) 5,
        ← Real.rpow_mul (by norm_num : (0:ℝ) ≤ (1909 : ℝ) / 21100),
        show (2.4 : ℝ) * ((5 : ℕ) : ℝ) = ((12 : ℕ) : ℝ) by norm_num,
        Real.rpow_natCast]
  have hclo : (0.0031308 : ℝ) < ((1909 : ℝ) / 21100) ^ (2.4 : ℝ) := by
    apply lt_of_pow_lt_pow_left₀ 5 (Real.rpow_nonneg (by norm_num) _)
    rw [hpow12]
    norm_num
  have hygt : (0.0031308 : ℝ) < ((x + 0.055) / 1.055) ^ (2.4 : ℝ) :=
    lt_of_lt_of_le hclo hstep
  have hS : convertSRGBToLinear x = ((x + 0.055) / 1.055) ^ (2.4 : ℝ) := by
    unfold convertSRGBToLinear GfClamp
    rw [if_neg (not_le.mpr h1), if_neg (not_lt.mpr hy0), if_neg (not_lt.mpr hy1)]
  rw [hS]
  have hyb : (((x + 0.055) / 1.055) ^ (2.4 : ℝ)) ^ (1 / (2.4 : ℝ)) =
      (x + 0.055) / 1.055 := by
    rw [← Real.rpow_mul hb0, show (2.4 : ℝ) * (1 / 2.4) = 1 by norm_num, Real.rpow_one]
  have hv : 1.055 * ((x + 0.055) / 1.055) - 0.055 = x := by ring
  unfold convertLinearToSRGB GfClamp
  rw [if_neg (not_le.mpr hygt), hyb, hv, if_neg (not_lt.mpr h0),
      if_neg (not_lt.mpr h2)]

lemma premultiplySRGBChannel_alphaFull (p : ℕ) (hp : p ≤ 255) :
    premultiplySRGBChannel p 255 = (p : ℤ) := by
  have hpR : (p : ℝ) ≤ 255 := by exact_mod_cast hp
  have hp0 : (0:ℝ) ≤ (p : ℝ) := p.cast_nonneg
  simp only [premultiplySRGBChannel]
  push_cast
  rw [show (255 : ℝ) / 255 = 1 by norm_num, mul_one,
      show (255 : ℝ) * convertSRGBToLinear ((p : ℝ) / 255) / 255 =
        convertSRGBToLinear ((p : ℝ) / 255) by ring]
  have hrt : convertLinearToSRGB (convertSRGBToLinear ((p : ℝ) / 255)) = (p : ℝ) / 255 := by
    rcases le_or_lt p 10 with h | h
    · have h10 : (p : ℝ) ≤ 10 := by exact_mod_cast h
      apply convertRoundTripLow _ (by positivity)
      · rw [div_le_iff₀ (by norm_num : (0:ℝ) < 255)]
        linarith
      · rw [div_le_iff₀ (by norm_num : (0:ℝ) < 255)]
        linarith
    · have h11 : (11 : ℝ) ≤ (p : ℝ) := by exact_mod_cast h
      apply convertRoundTripHigh
      · rw [lt_div_iff₀ (by norm_num : (0:ℝ) < 255)]
        linarith
      · rw [div_le_one (by norm_num : (0:ℝ) < 255)]
        linarith
  rw [hrt, show (255 : ℝ) * ((p : ℝ) / 255) + 0.5 = ((p : ℤ) : ℝ) + 0.5 by push_cast; ring]
  unfold truncToIntR
  rw [if_pos (by positivity), Int.floor_int_add]
  norm_num

lemma truncToInt_toNat_of_nonneg (q : ℚ) (h : 0 ≤ q) :
    ((truncToInt q).toNat : ℤ) = ⌊q⌋ := by
  simp only [truncToInt]
  rw [if_pos h, Int.toNat_of_nonneg (Int.floor_nonneg.mpr h)]

/-- Claim C1 (evidence for the code bug): running `_ConvertRGBToRGBA` for
`unsigned char` with `texelCount = 2` in place (`src == dst`) on the packed
3-channel buffer `[10,20,30, 40,50,60]` (stored in a region with capacity
for 8 elements) produces `[10,20,30,255, 40,40,40,255]` — in iteration
`i = 1` the write `dst[4] = src[3]` happens before the reads `src[4]` and
`src[5]`, so channels 1 and 2 of texel 1 pick up already-overwritten
values — and not `[10,20,30,255, 40,50,60,255]` as the claim requires;
the separate-buffer run of the same loop does produce the claimed value. -/
theorem convertRGBToRGBA_inPlace_clobbers :
    convertRGBToRGBAInPlace OpaqueAlphaUInt8 2 [10, 20, 30, 40, 50, 60, 0, 0] =
      [10, 20, 30, 255, 40, 40, 40, 255] ∧
    convertRGBToRGBAInPlace OpaqueAlphaUInt8 2 [10, 20, 30, 40, 50, 60, 0, 0] ≠
      [10, 20, 30, 255, 40, 50, 60, 255] ∧
    convertRGBToRGBASeparate OpaqueAlphaUInt8 [10, 20, 30, 40, 50, 60] 2
      [0, 0, 0, 0, 0, 0, 0, 0] = [10, 20, 30, 255, 40, 50, 60, 255] := by
  decide

/-- Claim C2: the integer-family premultiply transformer without sRGB
computes `alpha = a / maxValue` as a ratio lying in `[0, 1]`, multiplies
each of the three color channels (as a float) by `alpha`, stores each
result by adding `0.5` and truncating (equivalently, as the floor of
`p * alpha + 1/2`, the value being nonnegative), and copies the alpha
channel through unchanged; on the uint8 texel `(255,128,0,128)` the red
result is exactly `128`, the blue result `0`, and alpha stays `128`. -/
theorem premultiplyAlpha_noSRGB_spec (maxVal : ℕ) (hmax : 0 < maxVal)
    (t : Texel ℕ) (ha : t.a ≤ maxVal) :
    ((0:ℚ) ≤ (t.a : ℚ) / (maxVal : ℚ) ∧ (t.a : ℚ) / (maxVal : ℚ) ≤ 1) ∧
    (((premultiplyAlphaTexel maxVal t).r : ℤ) =
        ⌊(t.r : ℚ) * ((t.a : ℚ) / (maxVal : ℚ)) + 1/2⌋ ∧
      ((premultiplyAlphaTexel maxVal t).g : ℤ) =
        ⌊(t.g : ℚ) * ((t.a : ℚ) / (maxVal : ℚ)) + 1/2⌋ ∧
      ((premultiplyAlphaTexel maxVal t).b : ℤ) =
        ⌊(t.b : ℚ) * ((t.a : ℚ) / (maxVal : ℚ)) + 1/2⌋) ∧
    (premultiplyAlphaTexel maxVal t).a = t.a ∧
    premultiplyAlphaTexel 255 ⟨255, 128, 0, 128⟩ = ⟨128, 64, 0, 128⟩ := by
  refine ⟨⟨by positivity, ?_⟩,
    ⟨truncToInt_toNat_of_nonneg _ (by positivity),
      truncToInt_toNat_of_nonneg _ (by positivity),
      truncToInt_toNat_of_nonneg _ (by positivity)⟩, rfl, ?_⟩
  · rw [div_le_one (by exact_mod_cast hmax)]
    exact_mod_cast ha
  · simp only [premultiplyAlphaTexel, truncToInt, Texel.mk.injEq]
    norm_num
    omega

/-- Witness for `premultiplyAlpha_noSRGB_spec` at `maxVal = 255` and the
texel `(255, 128, 0, 128)`. -/
theorem premultiplyAlpha_noSRGB_spec_witness :
    ((0:ℕ) < 255 ∧ (128:ℕ) ≤ 255) ∧
      (premultiplyAlphaTexel 255 ⟨255, 128, 0, 128⟩).a = 128 :=
  ⟨⟨by decide, by decide⟩,
    (premultiplyAlpha_noSRGB_spec 255 (by decide) ⟨255, 128, 0, 128⟩
      (by decide)).2.2.1⟩

/-- Claim C5: the floating-point premultiply transformer multiplies each of
the three color channels by the alpha channel and copies alpha through
unchanged — no clamping, no rounding, no gamma handling — and on the texel
`(0.8, 0.4, 0.2, 0.5)` yields `(0.4, 0.2, 0.1, 0.5)` exactly. -/
theorem premultiplyAlphaFloat_spec (t : Texel ℚ) :
    (premultiplyAlphaFloatTexel t).r = t.r * t.a ∧
    (premultiplyAlphaFloatTexel t).g = t.g * t.a ∧
    (premultiplyAlphaFloatTexel t).b = t.b * t.a ∧
    (premultiplyAlphaFloatTexel t).a = t.a ∧
    premultiplyAlphaFloatTexel ⟨0.8, 0.4, 0.2, 0.5⟩ = ⟨0.4, 0.2, 0.1, 0.5⟩ := by
  refine ⟨rfl, rfl, rfl, rfl, ?_⟩
  simp only [premultiplyAlphaFloatTexel, Texel.mk.injEq]
  norm_num

/-- Claim C6: for the uint8 sRGB-aware integer premultiply transformer, on
every texel whose alpha channel is the maximum representable value `255`,
each output color channel equals the corresponding input channel to within
`±1` (here in fact exactly, in the real-number model of the float
arithmetic): with `alpha = 1`, the sRGB decode, the multiplication and the
sRGB re-encode compose to the identity, so storing
`floor(value + 0.5)` returns the original integer. -/
theorem premultiplySRGB_alphaFull_roundTrip (t : Texel ℕ) (ha : t.a = 255)
    (hr : t.r ≤ 255) (hg : t.g ≤ 255) (hb : t.b ≤ 255) :
    |(premultiplySRGBTexel t).r - (t.r : ℤ)| ≤ 1 ∧
    |(premultiplySRGBTexel t).g - (t.g : ℤ)| ≤ 1 ∧
    |(premultiplySRGBTexel t).b - (t.b : ℤ)| ≤ 1 ∧
    (premultiplySRGBTexel t).a = (t.a : ℤ) := by
  simp only [premultiplySRGBTexel, ha]
  rw [premultiplySRGBChannel_alphaFull t.r hr, premultiplySRGBChannel_alphaFull t.g hg,
      premultiplySRGBChannel_alphaFull t.b hb]
  simp

/-- Witness for `premultiplySRGB_alphaFull_roundTrip` at the texel
`(200, 5, 100, 255)`. -/
theorem premultiplySRGB_alphaFull_roundTrip_witness :
    ((200:ℕ) ≤ 255 ∧ (5:ℕ) ≤ 255 ∧ (100:ℕ) ≤ 255) ∧
      |(premultiplySRGBTexel ⟨200, 5, 100, 255⟩).r - (200:ℤ)| ≤ 1 :=
  ⟨⟨by decide, by decide, by decide⟩,
    (premultiplySRGB_alphaFull_roundTrip ⟨200, 5, 100, 255⟩ rfl (by decide)
      (by decide) (by decide)).1⟩

/-- Claim C3: for the three 3-channel normalized-integer source formats
(`UNorm8Vec3`, `SNorm8Vec3`, `UNorm8Vec3srgb`), `GetHgiFormat` returns the
corresponding 4-channel target format and stores the channel-expansion
conversion for that element type, for both values of
`avoidThreeComponentFormats` and both values of `premultiplyAlpha`. -/
theorem getHgiFormat_threeChannelNormalized (pm av : Bool)
    (conv : Option ConversionFunction) :
    GetHgiFormat (some .UNorm8Vec3) pm av conv =
      ⟨.UNorm8Vec4, some (.convertRGBToRGBA .unsignedChar), none⟩ ∧
    GetHgiFormat (some .SNorm8Vec3) pm av conv =
      ⟨.SNorm8Vec4, some (.convertRGBToRGBA .signedChar), none⟩ ∧
    GetHgiFormat (some .UNorm8Vec3srgb) pm av conv =
      ⟨.UNorm8Vec4srgb, some (.convertRGBToRGBA .unsignedChar), none⟩ :=
  ⟨rfl, rfl, rfl⟩

/-- Claim C4: for the 3-channel float and non-normalized integer source
formats (`Float16Vec3`, `Float32Vec3`, `UInt16Vec3`, `Int32Vec3`),
`GetHgiFormat` returns the 4-channel target with the channel-expansion
conversion exactly when `avoidThreeComponentFormats` is set, and otherwise
the 3-channel target with the conversion out-parameter untouched. -/
theorem getHgiFormat_threeChannelFloatInt (pm : Bool)
    (conv : Option ConversionFunction) :
    (GetHgiFormat (some .Float16Vec3) pm true conv =
        ⟨.Float16Vec4, some (.convertRGBToRGBA .gfHalf), none⟩ ∧
      GetHgiFormat (some .Float16Vec3) pm false conv =
        ⟨.Float16Vec3, conv, none⟩) ∧
    (GetHgiFormat (some .Float32Vec3) pm true conv =
        ⟨.Float32Vec4, some (.convertRGBToRGBA .float), none⟩ ∧
      GetHgiFormat (some .Float32Vec3) pm false conv =
        ⟨.Float32Vec3, conv, none⟩) ∧
    (GetHgiFormat (some .UInt16Vec3) pm true conv =
        ⟨.UInt16Vec4, some (.convertRGBToRGBA .uint16), none⟩ ∧
      GetHgiFormat (some .UInt16Vec3) pm false conv =
        ⟨.UInt16Vec3, conv, none⟩) ∧
    (GetHgiFormat (some .Int32Vec3) pm true conv =
        ⟨.Int32Vec4, some (.convertRGBToRGBA .int32), none⟩ ∧
      GetHgiFormat (some .Int32Vec3) pm false conv =
        ⟨.Int32Vec3, conv, none⟩) :=
  ⟨⟨rfl, rfl⟩, ⟨rfl, rfl⟩, ⟨rfl, rfl⟩, ⟨rfl, rfl⟩⟩

/-- Claim C7: for every recognized-but-unsupported source format (the four
double-precision formats, the four signed 16-bit integer formats, the four
unsigned 32-bit integer formats, and the one- and two-channel sRGB
variants), `GetHgiFormat` emits a warning-class diagnostic, returns the
invalid sentinel and leaves the conversion out-parameter untouched,
regardless of the two flags. -/
theorem getHgiFormat_unsupportedWarns (pm av : Bool)
    (conv : Option ConversionFunction) :
    GetHgiFormat (some .Double64) pm av conv = ⟨.Invalid, conv, some .warning⟩ ∧
    GetHgiFormat (some .Double64Vec2) pm av conv = ⟨.Invalid, conv, some .warning⟩ ∧
    GetHgiFormat (some .Double64Vec3) pm av conv = ⟨.Invalid, conv, some .warning⟩ ∧
    GetHgiFormat (some .Double64Vec4) pm av conv = ⟨.Invalid, conv, some .warning⟩ ∧
    GetHgiFormat (some .Int16) pm av conv = ⟨.Invalid, conv, some .warning⟩ ∧
    GetHgiFormat (some .Int16Vec2) pm av conv = ⟨.Invalid, conv, some .warning⟩ ∧
    GetHgiFormat (some .Int16Vec3) pm av conv = ⟨.Invalid, conv, some .warning⟩ ∧
    GetHgiFormat (some .Int16Vec4) pm av conv = ⟨.Invalid, conv, some .warning⟩ ∧
    GetHgiFormat (some .UInt32) pm av conv = ⟨.Invalid, conv, some .warning⟩ ∧
    GetHgiFormat (some .UInt32Vec2) pm av conv = ⟨.Invalid, conv, some .warning⟩ ∧
    GetHgiFormat (some .UInt32Vec3) pm av conv = ⟨.Invalid, conv, some .warning⟩ ∧
    GetHgiFormat (some .UInt32Vec4) pm av conv = ⟨.Invalid, conv, some .warning⟩ ∧
    GetHgiFormat (some .UNorm8srgb) pm av conv = ⟨.Invalid, conv, some .warning⟩ ∧
    GetHgiFormat (some .UNorm8Vec2srgb) pm av conv = ⟨.Invalid, conv, some .warning⟩ :=
  ⟨rfl, rfl, rfl, rfl, rfl, rfl, rfl, rfl, rfl, rfl, rfl, rfl, rfl, rfl⟩

/-- Claim C8: on the `Invalid` sentinel `GetHgiFormat` returns the same
sentinel without any diagnostic and without touching the conversion
out-parameter; on the `Count` sentinel and on any value outside the
enumeration it emits a programming-error-class diagnostic — a severity
distinct from the warning class used for unsupported formats — and still
returns the invalid sentinel. -/
theorem getHgiFormat_sentinels (pm av : Bool) (conv : Option ConversionFunction) :
    GetHgiFormat (some .Invalid) pm av conv = ⟨.Invalid, conv, none⟩ ∧
    GetHgiFormat (some .Count) pm av conv = ⟨.Invalid, conv, some .codingError⟩ ∧
    GetHgiFormat none pm av conv = ⟨.Invalid, conv, some .codingError⟩ ∧
    TfDiagType.codingError ≠ TfDiagType.warning :=
  ⟨rfl, rfl, rfl, by decide⟩

/-- Claim C9: every block-compressed source format passes through to the
identically-named target format with the conversion out-parameter
untouched, for both values of `premultiplyAlpha` (in particular the sRGB
block-compressed variant with `premultiplyAlpha = true`). -/
theorem getHgiFormat_blockCompressed (pm av : Bool)
    (conv : Option ConversionFunction) :
    GetHgiFormat (some .BC6FloatVec3) pm av conv = ⟨.BC6FloatVec3, conv, none⟩ ∧
    GetHgiFormat (some .BC6UFloatVec3) pm av conv = ⟨.BC6UFloatVec3, conv, none⟩ ∧
    GetHgiFormat (some .BC7UNorm8Vec4) pm av conv = ⟨.BC7UNorm8Vec4, conv, none⟩ ∧
    GetHgiFormat (some .BC7UNorm8Vec4srgb) pm av conv =
      ⟨.BC7UNorm8Vec4srgb, conv, none⟩ ∧
    GetHgiFormat (some .BC1UNorm8Vec4) pm av conv = ⟨.BC1UNorm8Vec4, conv, none⟩ ∧
    GetHgiFormat (some .BC3UNorm8Vec4) pm av conv = ⟨.BC3UNorm8Vec4, conv, none⟩ :=
  ⟨rfl, rfl, rfl, rfl, rfl, rfl⟩

/-- Claim C10: `GetHgiFormat` writes through its `conversionFunction`
out-parameter exactly in the cases `selectsConversion` describes (a
3-channel expansion case or an uncompressed 4-channel case with
`premultiplyAlpha` set), storing `conversionWritten`; in every other case
the pointed-to value is returned unmodified — it is never overwritten with
a null value, so a caller must pre-initialize it to observe that no
transformation was selected. -/
theorem getHgiFormat_convOutParamFrame (f : Option HioFormat) (pm av : Bool)
    (conv : Option ConversionFunction) :
    (GetHgiFormat f pm av conv).conversionFunction =
      if selectsConversion f pm av then some (conversionWritten f) else conv := by
  cases f with
  | none => rfl
  | some g => cases g <;> cases pm <;> cases av <;> rfl
